import Mathlib

/-
Verification of the authentication token
lifecycle and access-control decision cache of a project/task-management
API, shallowly embedded from the
TypeScript source (auth middleware, project/task access middleware,
project and auth controllers, Redis-backed cache).
-/

namespace PMT

/-! ## Roles (user.interface.ts: TUserRole = admin | manager | member) -/

inductive Role
  | admin
  | manager
  | member
deriving DecidableEq, Repr

def Role.toStr : Role → String
  | .admin => "admin"
  | .manager => "manager"
  | .member => "member"

/-! ## Cache store (redis.config.ts client, node-redis v4 semantics)

A reachable store is an association list of key to entry; the entry keeps
the value and the TTL it was written with (`set(key, value, { EX: ttl })`
is atomic with its TTL). `none` at the `OStore` level models an
unreachable Redis client: every command rejects, which the surrounding
`try/catch` of each handler turns into its 500 response. -/

structure CacheEntry where
  value : String
  ttl : Nat
deriving DecidableEq, Repr

abbrev Store := List (String × CacheEntry)

abbrev OStore := Option Store

def rfind : Store → String → Option CacheEntry
  | [], _ => none
  | (k, e) :: rest, key => if k = key then some e else rfind rest key

/-- Redis GET (`redisClient.get key`): the stored value, or null. -/
def rget (s : Store) (k : String) : Option String :=
  (rfind s k).map CacheEntry.value

/-- Redis SET with expiry (`redisClient.set key v` with EX ttl): overwrite,
newest binding wins. -/
def rset (s : Store) (k v : String) (ttl : Nat) : Store :=
  (k, ⟨v, ttl⟩) :: s

/-- Redis DEL (`redisClient.del key`) removes exactly the named key; a `*`
in the argument is an ordinary character, not a glob. -/
def rdel : Store → String → Store
  | [], _ => []
  | (k, e) :: rest, key => if k = key then rdel rest key else (k, e) :: rdel rest key

/-- JS truthiness of a nullable string (`if (cached)`). -/
def truthy : Option String → Bool
  | none => false
  | some s => s != ""

/-! ## External datastore (Mongo models: Project, Task, User) -/

structure ProjectRec where
  createdBy : String
  members : List String
deriving DecidableEq, Repr

structure TaskRec where
  project : String
deriving DecidableEq, Repr

structure UserRec where
  role : Role
deriving DecidableEq, Repr

def alookup {α : Type} : List (String × α) → String → Option α
  | [], _ => none
  | (k, v) :: rest, key => if k = key then some v else alookup rest key

structure Db where
  projects : List (String × ProjectRec)
  tasks : List (String × TaskRec)
  users : List (String × UserRec)
deriving Repr

/-- Replace the first binding of a key (Mongoose `document.save()` after
an in-place mutation). -/
def aupdate {α : Type} : List (String × α) → String → α → List (String × α)
  | [], _, _ => []
  | (k, v) :: rest, key, v2 =>
    if k = key then (k, v2) :: rest else (k, v) :: aupdate rest key v2

/-! ## JSON Web Tokens (jsonwebtoken via auth.middleware.ts)

A signed token is opaque to the model: a `JwtWorld` is the graph of the
signing function, mapping each issued token string to the claims it
carries and the secret it was signed with. `jwt.verify` checks the
signature (membership in the world under the right secret) and then
expiry; `jwt.decode` reads the claims without any check. -/

structure JwtClaim where
  uid : String
  role : Option Role
  exp : Nat
  secret : String
deriving DecidableEq, Repr

abbrev JwtWorld := List (String × JwtClaim)

/-- Secret used for access tokens (`process.env.JWT_SECRET`). -/
def jwtSecret : String := "JWT_SECRET"

/-- Secret used for refresh tokens (`process.env.JWT_REFRESH_SECRET`). -/
def jwtRefreshSecret : String := "JWT_REFRESH_SECRET"

inductive JwtError
  | expired
  | invalid
deriving DecidableEq, Repr

/-- Verification as in `jwt.verify(token, secret)`: JsonWebTokenError when
the token was not signed with `secret`; TokenExpiredError when the
signature is good but the clock is at or past `exp` (jsonwebtoken treats
clock at or beyond exp as expired). -/
def jwtVerify (world : JwtWorld) (secret tok : String) (now : Nat) :
    Except JwtError JwtClaim :=
  match alookup world tok with
  | none => .error .invalid
  | some c =>
    if c.secret = secret then
      if c.exp ≤ now then .error .expired else .ok c
    else .error .invalid

/-- Decoding as in `jwt.decode(token)`: claims without signature or expiry
checks. -/
def jwtDecode (world : JwtWorld) (tok : String) : Option JwtClaim :=
  alookup world tok

/-! ## JS string operations used by the middleware -/

/-- JS `header.startsWith(p)`: `p` is a prefix of the character sequence. -/
def strStarts (s p : String) : Bool :=
  p.data.isPrefixOf s.data

def splitChAux : List Char → List Char → List (List Char)
  | [], acc => [acc.reverse]
  | c :: rest, acc =>
    if c = ' ' then acc.reverse :: splitChAux rest []
    else splitChAux rest (c :: acc)

/-- JS split on a single space: the chunks between space characters,
empty chunks included. -/
def splitSpace (s : String) : List String :=
  (splitChAux s.data []).map String.mk

/-! ## auth.middleware.ts -/

inductive AuthOutcome
  | success (uid : String) (role : Role) (token : String)
  | fail (status : Nat) (message : String)
deriving DecidableEq, Repr

/-- The authenticate middleware (auth.middleware.ts): header shape, token presence,
blacklist lookup, `jwt.verify`, then the user fetch; each failure is the
response the code sends (`.fail status message`). An unreachable Redis at
the blacklist lookup rejects and is caught by the 500 branch. -/
def authenticate (world : JwtWorld) (ost : OStore) (db : Db) (now : Nat)
    (authHeader : Option String) : AuthOutcome :=
  match authHeader with
  | none => .fail 401 "Authorization header with Bearer token required"
  | some h =>
    if strStarts h "Bearer " then
      match (splitSpace h).get? 1 with
      | none => .fail 401 "Authentication token missing"
      | some token =>
        if token = "" then .fail 401 "Authentication token missing"
        else
          match ost with
          | none => .fail 500 "Authentication failed"
          | some store =>
            if truthy (rget store ("blacklist:" ++ token)) then
              .fail 401 "Session expired. Please login again"
            else
              match jwtVerify world jwtSecret token now with
              | .error .expired => .fail 401 "Session expired. Please login again"
              | .error .invalid => .fail 401 "Invalid authentication token"
              | .ok c =>
                match alookup db.users c.uid with
                | none => .fail 401 "User account not found"
                | some u => .success c.uid u.role token
    else .fail 401 "Authorization header with Bearer token required"

structure AuthUser where
  uid : String
  role : Role
deriving DecidableEq, Repr

inductive GateResult
  | next
  | fail (status : Nat) (message : String)
deriving DecidableEq, Repr

/-- The authorize gate (auth.middleware.ts), `authorize(allowedRoles)`: 403 when no user is
attached to the request, 403 when the attached role is not allow-listed. -/
def authorize (allowedRoles : List Role) (user : Option AuthUser) : GateResult :=
  match user with
  | none => .fail 403 "Authentication required"
  | some u =>
    if allowedRoles.contains u.role then .next
    else
      .fail 403 ("Insufficient permissions. Required role: "
        ++ String.intercalate " or " (allowedRoles.map Role.toStr))

structure TokenPair where
  world : JwtWorld
  store : OStore
  accessToken : String
  refreshToken : String

/-- Token issuance, `generateAuthTokens` (auth.middleware.ts): signs a 15-minute access
token carrying `{_id, role}` under JWT_SECRET and a 7-day refresh token
carrying `{_id}` under JWT_REFRESH_SECRET, then stores the refresh token
under `refresh:<uid>` with a 7-day TTL. The fresh token strings are
parameters (the signature output); signing extends the world. Errors only
when the cache store is unreachable. -/
def generateAuthTokens (world : JwtWorld) (ost : OStore) (uid : String)
    (role : Role) (now : Nat) (accessStr refreshStr : String) :
    Except Unit TokenPair :=
  let aClaim : JwtClaim := ⟨uid, some role, now + 15 * 60, jwtSecret⟩
  let rClaim : JwtClaim := ⟨uid, none, now + 7 * 24 * 60 * 60, jwtRefreshSecret⟩
  let world2 := (refreshStr, rClaim) :: (accessStr, aClaim) :: world
  match ost with
  | none => .error ()
  | some store =>
    .ok ⟨world2,
         some (rset store ("refresh:" ++ uid) refreshStr (7 * 24 * 60 * 60)),
         accessStr, refreshStr⟩

/-! ## auth.controller.ts: logout -/

/-- The logout handler (auth.controller.ts): 401 if no token/user on the request;
`jwt.decode` the token (a token the world does not know decodes to null
and the `decoded.exp` access throws, caught as 500); when remaining
lifetime `exp - now` is positive, blacklist the raw token value with that
TTL; finally delete `refresh:<uid>` and `user:<uid>`. Returns the response
status with the resulting store. -/
def logout (world : JwtWorld) (ost : OStore) (token userId : String)
    (now : Nat) : Nat × OStore :=
  if token = "" then (401, ost)
  else
    match jwtDecode world token with
    | none => (500, ost)
    | some c =>
      let expiresIn : Int := (c.exp : Int) - (now : Int)
      match ost with
      | none => (500, none)
      | some store =>
        let s1 := if 0 < expiresIn then
            rset store ("blacklist:" ++ token) "logged out" expiresIn.toNat
          else store
        let s2 := rdel s1 ("refresh:" ++ userId)
        let s3 := rdel s2 ("user:" ++ userId)
        (200, some s3)

/-! ## Access-control decision cache (project.middleware.ts, task middleware) -/

inductive AccessResult
  | allow
  | denied
  | notFound
  | unauth
  | internalError
deriving DecidableEq, Repr

structure CheckOut where
  decision : AccessResult
  store : OStore
  dbReads : Nat
deriving Repr

/-- Project access middleware, `validateProjectAccess` (project.middleware.ts): cache key
`project:<projectId>:user:<userId>`; a cached `true` passes, a cached
`false` is 403; otherwise one datastore read resolves the project (404
when absent), access is `project.members.includes(userId)` — the owner is
not separately consulted — and the sentinel is written with `EX: 3600`.
Every Redis command rejecting (store unreachable) is caught as 500. The
`dbReads` field counts `Project.findById` calls. -/
def validateProjectAccess (ost : OStore) (db : Db) (projectId userId : String) :
    CheckOut :=
  match ost with
  | none => ⟨.internalError, none, 0⟩
  | some store =>
    let cacheKey := "project:" ++ projectId ++ ":user:" ++ userId
    match rget store cacheKey with
    | some "true" => ⟨.allow, some store, 0⟩
    | some "false" => ⟨.denied, some store, 0⟩
    | _ =>
      match alookup db.projects projectId with
      | none => ⟨.notFound, some store, 1⟩
      | some p =>
        let hasAccess := p.members.contains userId
        let store2 := rset store cacheKey (if hasAccess then "true" else "false") 3600
        ⟨if hasAccess then .allow else .denied, some store2, 1⟩

/-- Task access middleware, `validateTaskAccess`: 401 on a missing user id; cache
key `task:<taskId>:user:<userId>`; on a miss, one datastore read resolves
`Task.findOne` on (_id: taskId, project: projectId) with its project
populated (404 when absent); access is owner-or-member of the parent
project; the sentinel is written with `EX: 3600`. A task whose project
record is gone makes the populated field null and the property access
throw, caught as 500. -/
def validateTaskAccess (ost : OStore) (db : Db) (taskId projectId userId : String) :
    CheckOut :=
  if userId = "" then ⟨.unauth, ost, 0⟩
  else
    match ost with
    | none => ⟨.internalError, none, 0⟩
    | some store =>
      let cacheKey := "task:" ++ taskId ++ ":user:" ++ userId
      match rget store cacheKey with
      | some "true" => ⟨.allow, some store, 0⟩
      | some "false" => ⟨.denied, some store, 0⟩
      | _ =>
        match alookup db.tasks taskId with
        | none => ⟨.notFound, some store, 1⟩
        | some t =>
          if t.project = projectId then
            match alookup db.projects t.project with
            | none => ⟨.internalError, some store, 1⟩
            | some p =>
              let hasAccess := p.createdBy == userId || p.members.contains userId
              let store2 := rset store cacheKey (if hasAccess then "true" else "false") 3600
              ⟨if hasAccess then .allow else .denied, some store2, 1⟩
          else ⟨.notFound, some store, 1⟩

/-! ## project.controller.ts: createProject, addProjectMember -/

structure MutOut where
  db : Db
  store : OStore
  status : Nat
deriving Repr

/-- Project creation, `createProject` (project.controller.ts): the `members`
field of the new project
is `[createdBy]`; after `project.save()` the code deletes the literal
cache key `projects:*` — Redis DEL does not expand the `*`. `newId`
is the id Mongo assigns to the inserted document. -/
def createProject (ost : OStore) (db : Db) (creatorId newId : String) : MutOut :=
  let p : ProjectRec := ⟨creatorId, [creatorId]⟩
  let db2 : Db := { db with projects := (newId, p) :: db.projects }
  match ost with
  | none => ⟨db2, none, 500⟩
  | some store => ⟨db2, some (rdel store "projects:*"), 201⟩

/-- Member addition, `addProjectMember` (project.controller.ts): with the project and the
user to add resolved (by `validateProjectMember`), push the user into
`members` unless already present and save; then delete the literal cache
keys `projects:user:<current>`, `project:<projectId>:*` and
`projects:user:<added>` — Redis DEL does not expand the `*`. -/
def addProjectMember (ost : OStore) (db : Db)
    (currentUserId projectId userToAddId : String) : MutOut :=
  match alookup db.projects projectId, alookup db.users userToAddId with
  | some p, some _ =>
    let isMemberExists := p.members.contains userToAddId
    let p2 := if isMemberExists then p
              else { p with members := p.members ++ [userToAddId] }
    let db2 : Db := { db with projects := aupdate db.projects projectId p2 }
    match ost with
    | none => ⟨db2, none, 500⟩
    | some store =>
      let s1 := rdel store ("projects:user:" ++ currentUserId)
      let s2 := rdel s1 ("project:" ++ projectId ++ ":*")
      let s3 := rdel s2 ("projects:user:" ++ userToAddId)
      ⟨db2, some s3, 200⟩
  | _, _ => ⟨db, ost, 400⟩

/-! ## Refresh endpoint -/

/-- Modelled from the spec: the `refreshToken` controller is absent from
the sources (its route and import in the auth router are commented out),
so the refresh flow is taken from spec section 4.1: verify the refresh
signature and expiry of the refresh token; compare the registry record `refresh:<uid>`
with the presented token, failing Unauthenticated (401) when absent or
mismatched; on success re-read the identity from the datastore and issue a
new pair via the token-issuance path, which overwrites the registry
record. -/
def refreshTokens (world : JwtWorld) (ost : OStore) (db : Db)
    (refreshTok : String) (now : Nat) (newAccessStr newRefreshStr : String) :
    Except Nat TokenPair :=
  match jwtVerify world jwtRefreshSecret refreshTok now with
  | .error _ => .error 401
  | .ok c =>
    match ost with
    | none => .error 500
    | some store =>
      match rget store ("refresh:" ++ c.uid) with
      | none => .error 401
      | some stored =>
        if stored = refreshTok then
          match alookup db.users c.uid with
          | none => .error 401
          | some u =>
            match generateAuthTokens world (some store) c.uid u.role now
                newAccessStr newRefreshStr with
            | .error _ => .error 500
            | .ok tp => .ok tp
        else .error 401

/-! ## Cache-store lemmas -/

theorem rfind_rset_self (s : Store) (k v : String) (t : Nat) :
    rfind (rset s k v t) k = some ⟨v, t⟩ := by
  simp [rfind, rset]

theorem rfind_rdel (s : Store) (k k2 : String) :
    rfind (rdel s k) k2 = if k2 = k then none else rfind s k2 := by
  induction s with
  | nil => simp [rfind, rdel]
  | cons e rest ih =>
    obtain ⟨ke, ve⟩ := e
    by_cases hk : ke = k <;> by_cases h2 : ke = k2 <;>
      simp_all [rfind, rdel]

theorem rget_rset_self (s : Store) (k v : String) (t : Nat) :
    rget (rset s k v t) k = some v := by
  simp [rget, rfind_rset_self]

theorem rget_rdel_ne (s : Store) (k k2 : String) (h : k2 ≠ k) :
    rget (rdel s k) k2 = rget s k2 := by
  simp [rget, rfind_rdel, h]

theorem rget_rdel_none (s : Store) (k k2 : String) (h : rget s k2 = none) :
    rget (rdel s k) k2 = none := by
  by_cases hk : k2 = k <;> simp_all [rget, rfind_rdel]

theorem blacklist_key_ne_refresh_key (tok uid : String) :
    ("blacklist:" ++ tok) ≠ ("refresh:" ++ uid) := by
  intro h
  have h2 := congrArg String.data h
  rw [String.data_append, String.data_append] at h2
  have e1 : "blacklist:".data = ['b','l','a','c','k','l','i','s','t',':'] := rfl
  have e2 : "refresh:".data = ['r','e','f','r','e','s','h',':'] := rfl
  rw [e1, e2] at h2
  simp at h2

theorem blacklist_key_ne_user_key (tok uid : String) :
    ("blacklist:" ++ tok) ≠ ("user:" ++ uid) := by
  intro h
  have h2 := congrArg String.data h
  rw [String.data_append, String.data_append] at h2
  have e1 : "blacklist:".data = ['b','l','a','c','k','l','i','s','t',':'] := rfl
  have e2 : "user:".data = ['u','s','e','r',':'] := rfl
  rw [e1, e2] at h2
  simp at h2

/-! ## Cache-miss path of the access checks -/

theorem validateProjectAccess_miss (store : Store) (db : Db) (pid uid : String)
    (p : ProjectRec)
    (hmiss : rget store ("project:" ++ pid ++ ":user:" ++ uid) = none)
    (hp : alookup db.projects pid = some p) :
    validateProjectAccess (some store) db pid uid =
      ⟨if p.members.contains uid then .allow else .denied,
       some (rset store ("project:" ++ pid ++ ":user:" ++ uid)
         (if p.members.contains uid then "true" else "false") 3600), 1⟩ := by
  simp only [validateProjectAccess]
  rw [hmiss]
  simp [hp]

theorem validateTaskAccess_miss (store : Store) (db : Db) (tid pid uid : String)
    (t : TaskRec) (p : ProjectRec)
    (huid : uid ≠ "")
    (hmiss : rget store ("task:" ++ tid ++ ":user:" ++ uid) = none)
    (ht : alookup db.tasks tid = some t)
    (hproj : t.project = pid)
    (hp : alookup db.projects pid = some p) :
    validateTaskAccess (some store) db tid pid uid =
      ⟨if p.createdBy == uid || p.members.contains uid then .allow else .denied,
       some (rset store ("task:" ++ tid ++ ":user:" ++ uid)
         (if p.createdBy == uid || p.members.contains uid then "true" else "false") 3600),
       1⟩ := by
  simp only [validateTaskAccess]
  rw [if_neg huid]
  rw [hmiss]
  simp [ht, hproj, hp]


theorem validateProjectAccess_hit_true (store : Store) (db : Db) (pid uid : String)
    (h : rget store ("project:" ++ pid ++ ":user:" ++ uid) = some "true") :
    validateProjectAccess (some store) db pid uid = ⟨.allow, some store, 0⟩ := by
  simp only [validateProjectAccess]
  rw [h]
  rfl

theorem validateProjectAccess_hit_false (store : Store) (db : Db) (pid uid : String)
    (h : rget store ("project:" ++ pid ++ ":user:" ++ uid) = some "false") :
    validateProjectAccess (some store) db pid uid = ⟨.denied, some store, 0⟩ := by
  simp only [validateProjectAccess]
  rw [h]
  rfl

theorem validateProjectAccess_notFound (store : Store) (db : Db) (pid uid : String)
    (h1 : rget store ("project:" ++ pid ++ ":user:" ++ uid) ≠ some "true")
    (h2 : rget store ("project:" ++ pid ++ ":user:" ++ uid) ≠ some "false")
    (hp : alookup db.projects pid = none) :
    validateProjectAccess (some store) db pid uid = ⟨.notFound, some store, 1⟩ := by
  simp only [validateProjectAccess]
  split
  all_goals simp_all

theorem validateProjectAccess_miss_allow (store : Store) (db : Db) (pid uid : String)
    (p : ProjectRec)
    (h1 : rget store ("project:" ++ pid ++ ":user:" ++ uid) ≠ some "true")
    (h2 : rget store ("project:" ++ pid ++ ":user:" ++ uid) ≠ some "false")
    (hp : alookup db.projects pid = some p)
    (hm : p.members.contains uid = true) :
    validateProjectAccess (some store) db pid uid =
      ⟨.allow, some (rset store ("project:" ++ pid ++ ":user:" ++ uid) "true" 3600), 1⟩ := by
  simp only [validateProjectAccess]
  split
  all_goals simp_all

theorem validateProjectAccess_miss_deny (store : Store) (db : Db) (pid uid : String)
    (p : ProjectRec)
    (h1 : rget store ("project:" ++ pid ++ ":user:" ++ uid) ≠ some "true")
    (h2 : rget store ("project:" ++ pid ++ ":user:" ++ uid) ≠ some "false")
    (hp : alookup db.projects pid = some p)
    (hm : p.members.contains uid = false) :
    validateProjectAccess (some store) db pid uid =
      ⟨.denied, some (rset store ("project:" ++ pid ++ ":user:" ++ uid) "false" 3600), 1⟩ := by
  simp only [validateProjectAccess]
  split
  all_goals simp_all

theorem validateTaskAccess_unauth (ost : OStore) (db : Db) (tid pid : String) :
    validateTaskAccess ost db tid pid "" = ⟨.unauth, ost, 0⟩ := by
  simp [validateTaskAccess]

theorem validateTaskAccess_hit_true (store : Store) (db : Db) (tid pid uid : String)
    (huid : uid ≠ "")
    (h : rget store ("task:" ++ tid ++ ":user:" ++ uid) = some "true") :
    validateTaskAccess (some store) db tid pid uid = ⟨.allow, some store, 0⟩ := by
  simp only [validateTaskAccess]
  rw [if_neg huid, h]
  rfl

theorem validateTaskAccess_hit_false (store : Store) (db : Db) (tid pid uid : String)
    (huid : uid ≠ "")
    (h : rget store ("task:" ++ tid ++ ":user:" ++ uid) = some "false") :
    validateTaskAccess (some store) db tid pid uid = ⟨.denied, some store, 0⟩ := by
  simp only [validateTaskAccess]
  rw [if_neg huid, h]
  rfl

theorem validateTaskAccess_notFound (store : Store) (db : Db) (tid pid uid : String)
    (huid : uid ≠ "")
    (h1 : rget store ("task:" ++ tid ++ ":user:" ++ uid) ≠ some "true")
    (h2 : rget store ("task:" ++ tid ++ ":user:" ++ uid) ≠ some "false")
    (ht : alookup db.tasks tid = none) :
    validateTaskAccess (some store) db tid pid uid = ⟨.notFound, some store, 1⟩ := by
  simp only [validateTaskAccess]
  rw [if_neg huid]
  split
  all_goals simp_all

theorem validateTaskAccess_wrongProject (store : Store) (db : Db) (tid pid uid : String)
    (t : TaskRec) (huid : uid ≠ "")
    (h1 : rget store ("task:" ++ tid ++ ":user:" ++ uid) ≠ some "true")
    (h2 : rget store ("task:" ++ tid ++ ":user:" ++ uid) ≠ some "false")
    (ht : alookup db.tasks tid = some t)
    (hproj : t.project ≠ pid) :
    validateTaskAccess (some store) db tid pid uid = ⟨.notFound, some store, 1⟩ := by
  simp only [validateTaskAccess]
  rw [if_neg huid]
  split
  all_goals simp_all

theorem validateTaskAccess_orphan (store : Store) (db : Db) (tid pid uid : String)
    (t : TaskRec) (huid : uid ≠ "")
    (h1 : rget store ("task:" ++ tid ++ ":user:" ++ uid) ≠ some "true")
    (h2 : rget store ("task:" ++ tid ++ ":user:" ++ uid) ≠ some "false")
    (ht : alookup db.tasks tid = some t)
    (hproj : t.project = pid)
    (hp : alookup db.projects pid = none) :
    validateTaskAccess (some store) db tid pid uid = ⟨.internalError, some store, 1⟩ := by
  simp only [validateTaskAccess]
  rw [if_neg huid]
  split
  all_goals simp_all

theorem validateTaskAccess_miss_allow (store : Store) (db : Db) (tid pid uid : String)
    (t : TaskRec) (p : ProjectRec) (huid : uid ≠ "")
    (h1 : rget store ("task:" ++ tid ++ ":user:" ++ uid) ≠ some "true")
    (h2 : rget store ("task:" ++ tid ++ ":user:" ++ uid) ≠ some "false")
    (ht : alookup db.tasks tid = some t)
    (hproj : t.project = pid)
    (hp : alookup db.projects pid = some p)
    (hm : (p.createdBy == uid || p.members.contains uid) = true) :
    validateTaskAccess (some store) db tid pid uid =
      ⟨.allow, some (rset store ("task:" ++ tid ++ ":user:" ++ uid) "true" 3600), 1⟩ := by
  simp only [validateTaskAccess]
  rw [if_neg huid]
  split
  all_goals simp_all

theorem validateTaskAccess_miss_deny (store : Store) (db : Db) (tid pid uid : String)
    (t : TaskRec) (p : ProjectRec) (huid : uid ≠ "")
    (h1 : rget store ("task:" ++ tid ++ ":user:" ++ uid) ≠ some "true")
    (h2 : rget store ("task:" ++ tid ++ ":user:" ++ uid) ≠ some "false")
    (ht : alookup db.tasks tid = some t)
    (hproj : t.project = pid)
    (hp : alookup db.projects pid = some p)
    (hm : (p.createdBy == uid || p.members.contains uid) = false) :
    validateTaskAccess (some store) db tid pid uid =
      ⟨.denied, some (rset store ("task:" ++ tid ++ ":user:" ++ uid) "false" 3600), 1⟩ := by
  simp only [validateTaskAccess]
  rw [if_neg huid]
  split
  all_goals simp_all

/-! ## Claim theorems -/

/-- C5 counterexample: the claim says a cache miss computes allow iff the
subject is the owner of the resource or a member, for either resource type; but
`validateProjectAccess` only tests `project.members.includes(userId)`, so
the owner of a project whose member list does not contain them is denied:
project p1 is created by u1, u1 is its owner, the cache is empty, and the
check returns `denied`. -/
theorem projectAccess_denies_owner_outside_members :
    (((⟨"u1", []⟩ : ProjectRec).createdBy = "u1")
     ∧ alookup (⟨[("p1", ⟨"u1", []⟩)], [], []⟩ : Db).projects "p1" = some ⟨"u1", []⟩)
    ∧ (validateProjectAccess (some []) (⟨[("p1", ⟨"u1", []⟩)], [], []⟩ : Db) "p1" "u1").decision
        = .denied := by
  exact ⟨⟨rfl, rfl⟩, rfl⟩

/-- C5 (amended): on a permission-cache miss with the resource present,
the project-level check computes allow iff the subject appears in the
member set of the project (the owner is not separately consulted), while the
task-level check computes allow iff the subject is the owner of the parent
project or appears in its member set; in both cases the decision is a plain
allow/deny and is stored as a `true`/`false` sentinel under the decision
key. -/
theorem accessCheck_miss_decision (store : Store) (db : Db) (pid tid uid : String) :
    (∀ p : ProjectRec,
      rget store ("project:" ++ pid ++ ":user:" ++ uid) = none →
      alookup db.projects pid = some p →
      (((validateProjectAccess (some store) db pid uid).decision = .allow ↔ uid ∈ p.members)
       ∧ ((validateProjectAccess (some store) db pid uid).decision = .allow
           ∨ (validateProjectAccess (some store) db pid uid).decision = .denied)
       ∧ ∃ s2, (validateProjectAccess (some store) db pid uid).store = some s2
           ∧ rget s2 ("project:" ++ pid ++ ":user:" ++ uid)
               = some (if uid ∈ p.members then "true" else "false")))
    ∧ (∀ (t : TaskRec) (p : ProjectRec), uid ≠ "" →
      rget store ("task:" ++ tid ++ ":user:" ++ uid) = none →
      alookup db.tasks tid = some t → t.project = pid →
      alookup db.projects pid = some p →
      (((validateTaskAccess (some store) db tid pid uid).decision = .allow
          ↔ (p.createdBy = uid ∨ uid ∈ p.members))
       ∧ ((validateTaskAccess (some store) db tid pid uid).decision = .allow
           ∨ (validateTaskAccess (some store) db tid pid uid).decision = .denied)
       ∧ ∃ s2, (validateTaskAccess (some store) db tid pid uid).store = some s2
           ∧ rget s2 ("task:" ++ tid ++ ":user:" ++ uid)
               = some (if p.createdBy = uid ∨ uid ∈ p.members then "true" else "false"))) := by
  constructor
  · intro p hmiss hp
    rw [validateProjectAccess_miss store db pid uid p hmiss hp]
    by_cases hm : uid ∈ p.members
    · have hc : p.members.contains uid = true := by
        simpa using hm
      simp [hc, hm, rget_rset_self]
    · have hc : p.members.contains uid = false := by
        simpa using hm
      simp [hc, hm, rget_rset_self]
  · intro t p huid hmiss ht hproj hp
    rw [validateTaskAccess_miss store db tid pid uid t p huid hmiss ht hproj hp]
    by_cases hm : p.createdBy = uid ∨ uid ∈ p.members
    · have hc : (p.createdBy == uid || p.members.contains uid) = true := by
        simpa using hm
      simp [hc, hm, rget_rset_self]
    · have hc : (p.createdBy == uid || p.members.contains uid) = false := by
        simpa using hm
      simp [hc, hm, rget_rset_self]

/-- C5 witness: a concrete miss — project p2 owned by u9 with members
[u3, u9] allows u3; task t9 under p2 allows its owner u9. -/
theorem accessCheck_miss_decision_witness :
    ((validateProjectAccess (some []) (⟨[("p2", ⟨"u9", ["u3", "u9"]⟩)], [("t9", ⟨"p2"⟩)], []⟩ : Db)
        "p2" "u3").decision = .allow ↔ "u3" ∈ ["u3", "u9"])
    ∧ ((validateTaskAccess (some []) (⟨[("p2", ⟨"u9", ["u3", "u9"]⟩)], [("t9", ⟨"p2"⟩)], []⟩ : Db)
        "t9" "p2" "u9").decision = .allow
        ↔ ((⟨"u9", ["u3", "u9"]⟩ : ProjectRec).createdBy = "u9" ∨ "u9" ∈ ["u3", "u9"])) :=
  ⟨((accessCheck_miss_decision [] ⟨[("p2", ⟨"u9", ["u3", "u9"]⟩)], [("t9", ⟨"p2"⟩)], []⟩
      "p2" "t9" "u3").1 ⟨"u9", ["u3", "u9"]⟩ rfl rfl).1,
   ((accessCheck_miss_decision [] ⟨[("p2", ⟨"u9", ["u3", "u9"]⟩)], [("t9", ⟨"p2"⟩)], []⟩
      "p2" "t9" "u9").2 ⟨"p2"⟩ ⟨"u9", ["u3", "u9"]⟩ (by decide) rfl rfl rfl rfl).1⟩

/-- C6 counterexample: the claim says an unreachable cache store makes the
check fall back to the datastore and not fail Internal; but with the same
datastore state (u1 a member of p1, so the datastore decision is allow),
the code returns its 500 catch-all `internalError` when the store is down,
which is neither the datastore decision nor any allow/deny. -/
theorem cacheDown_no_datastore_fallback :
    (validateProjectAccess (some []) (⟨[("p1", ⟨"u1", ["u1"]⟩)], [], []⟩ : Db) "p1" "u1").decision
        = .allow
    ∧ (validateProjectAccess none (⟨[("p1", ⟨"u1", ["u1"]⟩)], [], []⟩ : Db) "p1" "u1").decision
        = .internalError
    ∧ AccessResult.internalError ≠ .allow
    ∧ AccessResult.internalError ≠ .denied := by
  exact ⟨rfl, rfl, by decide, by decide⟩

/-- C6 (amended): if the cache store is unreachable at permission-check
time, both access checks fail with the Internal (500) outcome — no
datastore fallback, no blind allow, no blind deny. -/
theorem cacheDown_internalError (db : Db) (pid tid uid : String) (huid : uid ≠ "") :
    (validateProjectAccess none db pid uid).decision = .internalError
    ∧ (validateTaskAccess none db tid pid uid).decision = .internalError := by
  refine ⟨rfl, ?_⟩
  simp [validateTaskAccess, huid]

/-- C6 witness. -/
theorem cacheDown_internalError_witness :
    (validateProjectAccess none (⟨[], [], []⟩ : Db) "p1" "u1").decision = .internalError
    ∧ (validateTaskAccess none (⟨[], [], []⟩ : Db) "t1" "p1" "u1").decision = .internalError :=
  cacheDown_internalError ⟨[], [], []⟩ "p1" "t1" "u1" (by decide)

/-- C7 counterexample: the claim says task-level decision entries are
written with TTL 1800; the task middleware writes its sentinel with
`EX: 3600` (its own comment says one hour), as this concrete miss shows:
task t1 under project p1, subject u1, empty cache — the entry written
under `task:t1:user:u1` carries TTL 3600, not 1800. -/
theorem taskSentinel_ttl_not_1800 :
    ∃ s2, (validateTaskAccess (some [])
        (⟨[("p1", ⟨"u1", ["u1"]⟩)], [("t1", ⟨"p1"⟩)], []⟩ : Db) "t1" "p1" "u1").store = some s2
      ∧ (rfind s2 "task:t1:user:u1").map CacheEntry.ttl = some 3600
      ∧ (rfind s2 "task:t1:user:u1").map CacheEntry.ttl ≠ some 1800 :=
  ⟨[("task:t1:user:u1", ⟨"true", 3600⟩)], rfl, rfl, by decide⟩

/-- C7 (amended): every permission-decision cache entry is written with
TTL 3600 seconds, for project-level and task-level entries alike (the
1800-second task TTL declared in the config is not consulted by the task
middleware). -/
theorem sentinel_ttl_3600 (store : Store) (db : Db) (pid tid uid : String) :
    (∀ p : ProjectRec,
      rget store ("project:" ++ pid ++ ":user:" ++ uid) = none →
      alookup db.projects pid = some p →
      ∃ s2, (validateProjectAccess (some store) db pid uid).store = some s2
        ∧ (rfind s2 ("project:" ++ pid ++ ":user:" ++ uid)).map CacheEntry.ttl = some 3600)
    ∧ (∀ (t : TaskRec) (p : ProjectRec), uid ≠ "" →
      rget store ("task:" ++ tid ++ ":user:" ++ uid) = none →
      alookup db.tasks tid = some t → t.project = pid →
      alookup db.projects pid = some p →
      ∃ s2, (validateTaskAccess (some store) db tid pid uid).store = some s2
        ∧ (rfind s2 ("task:" ++ tid ++ ":user:" ++ uid)).map CacheEntry.ttl = some 3600) := by
  constructor
  · intro p hmiss hp
    rw [validateProjectAccess_miss store db pid uid p hmiss hp]
    exact ⟨_, rfl, by simp [rfind_rset_self]⟩
  · intro t p huid hmiss ht hproj hp
    rw [validateTaskAccess_miss store db tid pid uid t p huid hmiss ht hproj hp]
    exact ⟨_, rfl, by simp [rfind_rset_self]⟩

/-- C7 witness. -/
theorem sentinel_ttl_3600_witness :
    ∃ s2, (validateProjectAccess (some [])
        (⟨[("p1", ⟨"u1", ["u1"]⟩)], [("t1", ⟨"p1"⟩)], []⟩ : Db) "p1" "u1").store = some s2
      ∧ (rfind s2 ("project:" ++ "p1" ++ ":user:" ++ "u1")).map CacheEntry.ttl = some 3600 :=
  (sentinel_ttl_3600 [] ⟨[("p1", ⟨"u1", ["u1"]⟩)], [("t1", ⟨"p1"⟩)], []⟩ "p1" "t1" "u1").1
    ⟨"u1", ["u1"]⟩ rfl rfl

/-- C10: the role-authorization gate responds 403 both when no identity is
attached and when the attached role is outside the allow-list, and no
input whatsoever makes it respond 401. -/
theorem authorize_rejects_with_403 (allowedRoles : List Role) (user : Option AuthUser) :
    (authorize allowedRoles none = .fail 403 "Authentication required")
    ∧ (∀ a : AuthUser, user = some a → allowedRoles.contains a.role = false →
        ∃ m, authorize allowedRoles user = .fail 403 m)
    ∧ (∀ m, authorize allowedRoles user ≠ .fail 401 m) := by
  refine ⟨rfl, ?_, ?_⟩
  · intro a hu hr
    subst hu
    have hr2 : a.role ∉ allowedRoles := by simpa using hr
    exact ⟨"Insufficient permissions. Required role: "
        ++ String.intercalate " or " (allowedRoles.map Role.toStr),
      by simp [authorize, hr2]⟩
  · intro m h
    cases user with
    | none => simp [authorize] at h
    | some a =>
      by_cases hr : a.role ∈ allowedRoles <;> simp [authorize, hr] at h

/-- C10 witness: a member hitting an admin-or-manager gate is met with
403. -/
theorem authorize_rejects_with_403_witness :
    ∃ m, authorize [Role.admin, Role.manager] (some ⟨"u1", Role.member⟩) = .fail 403 m :=
  (authorize_rejects_with_403 [Role.admin, Role.manager] (some ⟨"u1", Role.member⟩)).2.1
    ⟨"u1", Role.member⟩ rfl (by decide)

/-- C3 counterexample: the claim says every invalid credential is met with
one outcome identical regardless of which check failed; but a blacklisted
token and a token with an unknown signature draw different responses (same
status 401, different bodies), so the outcome is not identical and the
failing stage is disclosed. -/
theorem authenticate_failure_outcomes_differ :
    authenticate [("tokA", ⟨"u1", some .member, 100, jwtSecret⟩)]
        (some [("blacklist:tokA", ⟨"logged out", 50⟩)]) ⟨[], [], []⟩ 10
        (some "Bearer tokA")
      = .fail 401 "Session expired. Please login again"
    ∧ authenticate [("tokA", ⟨"u1", some .member, 100, jwtSecret⟩)] (some []) ⟨[], [], []⟩ 10
        (some "Bearer tokB")
      = .fail 401 "Invalid authentication token"
    ∧ AuthOutcome.fail 401 "Session expired. Please login again"
        ≠ .fail 401 "Invalid authentication token" := by
  exact ⟨rfl, rfl, by decide⟩

/-- C3 (amended): with the cache store reachable, every outcome of the
authentication middleware is either a success or a failure with HTTP
status 401 — all credential failure modes (malformed header, missing
token, blacklisted, expired, invalid signature, deleted subject) share the
status code — but the response message differs by the failing check, as
the counterexample shows. -/
theorem authenticate_failures_are_401 (world : JwtWorld) (store : Store) (db : Db)
    (now : Nat) (header : Option String) :
    (∃ uid role tok, authenticate world (some store) db now header = .success uid role tok)
    ∨ (∃ m, authenticate world (some store) db now header = .fail 401 m) := by
  unfold authenticate
  repeat' split
  all_goals first
    | exact .inl ⟨_, _, _, rfl⟩
    | exact .inr ⟨_, rfl⟩
    | simp_all

/-- C1 (code bug): starting from a cached deny for subject u2 on project
p1, `addProjectMember` adds u2 to the member set of p1 in the datastore, but
its cache invalidation runs Redis DEL on the literal key `project:p1:*`
(DEL does not expand `*` as a pattern), which does not touch the decision
key `project:p1:user:u2`; the next access check for (u2, p1) is served the
stale cached deny instead of recomputing allow as the claim requires. -/
theorem addProjectMember_stale_deny_persists :
    (∃ p : ProjectRec,
      alookup (addProjectMember (some [("project:p1:user:u2", ⟨"false", 3600⟩)])
          (⟨[("p1", ⟨"u1", ["u1"]⟩)], [], [("u1", ⟨.admin⟩), ("u2", ⟨.member⟩)]⟩ : Db)
          "u1" "p1" "u2").db.projects "p1" = some p
      ∧ "u2" ∈ p.members)
    ∧ (validateProjectAccess
        (addProjectMember (some [("project:p1:user:u2", ⟨"false", 3600⟩)])
          (⟨[("p1", ⟨"u1", ["u1"]⟩)], [], [("u1", ⟨.admin⟩), ("u2", ⟨.member⟩)]⟩ : Db)
          "u1" "p1" "u2").store
        (addProjectMember (some [("project:p1:user:u2", ⟨"false", 3600⟩)])
          (⟨[("p1", ⟨"u1", ["u1"]⟩)], [], [("u1", ⟨.admin⟩), ("u2", ⟨.member⟩)]⟩ : Db)
          "u1" "p1" "u2").db
        "p1" "u2").decision = .denied := by
  exact ⟨⟨⟨"u1", ["u1", "u2"]⟩, rfl, by decide⟩, rfl⟩

/-- C9: a project built by `createProject` carries its creator in its
member list from the start, so the creator immediately passes the
members-only access check of `validateProjectAccess`. -/
theorem createProject_creator_passes_check (store : Store) (db : Db) (creator pid : String)
    (hmiss : rget store ("project:" ++ pid ++ ":user:" ++ creator) = none) :
    (∃ p : ProjectRec,
      alookup (createProject (some store) db creator pid).db.projects pid = some p
      ∧ creator ∈ p.members)
    ∧ ∃ s2, (createProject (some store) db creator pid).store = some s2
        ∧ (validateProjectAccess (some s2) (createProject (some store) db creator pid).db
            pid creator).decision = .allow := by
  have hdb : alookup (createProject (some store) db creator pid).db.projects pid
      = some ⟨creator, [creator]⟩ := by
    simp [createProject, alookup]
  refine ⟨⟨⟨creator, [creator]⟩, hdb, by simp⟩, ?_⟩
  refine ⟨rdel store "projects:*", rfl, ?_⟩
  have hmiss2 : rget (rdel store "projects:*") ("project:" ++ pid ++ ":user:" ++ creator)
      = none := rget_rdel_none _ _ _ hmiss
  rw [validateProjectAccess_miss _ _ pid creator ⟨creator, [creator]⟩ hmiss2 hdb]
  simp

/-- C9 witness. -/
theorem createProject_creator_passes_check_witness :
    (∃ p : ProjectRec,
      alookup (createProject (some []) (⟨[], [], []⟩ : Db) "u5" "p7").db.projects "p7" = some p
      ∧ "u5" ∈ p.members)
    ∧ ∃ s2, (createProject (some []) (⟨[], [], []⟩ : Db) "u5" "p7").store = some s2
        ∧ (validateProjectAccess (some s2) (createProject (some []) (⟨[], [], []⟩ : Db) "u5" "p7").db
            "p7" "u5").decision = .allow :=
  createProject_creator_passes_check [] ⟨[], [], []⟩ "u5" "p7" rfl

/-- C8: with no intervening mutation, running the same access check twice
returns the same decision both times, and whenever the first decision is
an allow or a deny (a sentinel exists afterwards), the second call reads
nothing from the datastore — it is served from the cached sentinel. Holds
for project-level and task-level checks. -/
theorem check_idempotent_cache_hit (store : Store) (db : Db) (pid tid uid : String) :
    (((validateProjectAccess (validateProjectAccess (some store) db pid uid).store db pid uid).decision
        = (validateProjectAccess (some store) db pid uid).decision)
     ∧ (((validateProjectAccess (some store) db pid uid).decision = .allow
          ∨ (validateProjectAccess (some store) db pid uid).decision = .denied) →
        (validateProjectAccess (validateProjectAccess (some store) db pid uid).store db pid uid).dbReads = 0))
    ∧ (((validateTaskAccess (validateTaskAccess (some store) db tid pid uid).store db tid pid uid).decision
        = (validateTaskAccess (some store) db tid pid uid).decision)
     ∧ (((validateTaskAccess (some store) db tid pid uid).decision = .allow
          ∨ (validateTaskAccess (some store) db tid pid uid).decision = .denied) →
        (validateTaskAccess (validateTaskAccess (some store) db tid pid uid).store db tid pid uid).dbReads = 0)) := by
  constructor
  · by_cases h1 : rget store ("project:" ++ pid ++ ":user:" ++ uid) = some "true"
    · rw [validateProjectAccess_hit_true store db pid uid h1]
      rw [validateProjectAccess_hit_true store db pid uid h1]
      exact ⟨rfl, fun _ => rfl⟩
    · by_cases h2 : rget store ("project:" ++ pid ++ ":user:" ++ uid) = some "false"
      · rw [validateProjectAccess_hit_false store db pid uid h2]
        rw [validateProjectAccess_hit_false store db pid uid h2]
        exact ⟨rfl, fun _ => rfl⟩
      · rcases hp : alookup db.projects pid with _ | p
        · rw [validateProjectAccess_notFound store db pid uid h1 h2 hp]
          rw [validateProjectAccess_notFound store db pid uid h1 h2 hp]
          refine ⟨rfl, fun hcon => ?_⟩
          rcases hcon with h | h <;> simp at h
        · cases hm : p.members.contains uid
          · rw [validateProjectAccess_miss_deny store db pid uid p h1 h2 hp hm]
            rw [validateProjectAccess_hit_false _ db pid uid (by rw [rget_rset_self])]
            exact ⟨rfl, fun _ => rfl⟩
          · rw [validateProjectAccess_miss_allow store db pid uid p h1 h2 hp hm]
            rw [validateProjectAccess_hit_true _ db pid uid (by rw [rget_rset_self])]
            exact ⟨rfl, fun _ => rfl⟩
  · by_cases hu : uid = ""
    · subst hu
      rw [validateTaskAccess_unauth (some store) db tid pid]
      rw [validateTaskAccess_unauth (some store) db tid pid]
      refine ⟨rfl, fun hcon => ?_⟩
      rcases hcon with h | h <;> simp at h
    · by_cases h1 : rget store ("task:" ++ tid ++ ":user:" ++ uid) = some "true"
      · rw [validateTaskAccess_hit_true store db tid pid uid hu h1]
        rw [validateTaskAccess_hit_true store db tid pid uid hu h1]
        exact ⟨rfl, fun _ => rfl⟩
      · by_cases h2 : rget store ("task:" ++ tid ++ ":user:" ++ uid) = some "false"
        · rw [validateTaskAccess_hit_false store db tid pid uid hu h2]
          rw [validateTaskAccess_hit_false store db tid pid uid hu h2]
          exact ⟨rfl, fun _ => rfl⟩
        · rcases ht : alookup db.tasks tid with _ | t
          · rw [validateTaskAccess_notFound store db tid pid uid hu h1 h2 ht]
            rw [validateTaskAccess_notFound store db tid pid uid hu h1 h2 ht]
            refine ⟨rfl, fun hcon => ?_⟩
            rcases hcon with h | h <;> simp at h
          · by_cases hproj : t.project = pid
            · rcases hp : alookup db.projects pid with _ | p
              · rw [validateTaskAccess_orphan store db tid pid uid t hu h1 h2 ht hproj hp]
                rw [validateTaskAccess_orphan store db tid pid uid t hu h1 h2 ht hproj hp]
                refine ⟨rfl, fun hcon => ?_⟩
                rcases hcon with h | h <;> simp at h
              · cases hm : (p.createdBy == uid || p.members.contains uid)
                · rw [validateTaskAccess_miss_deny store db tid pid uid t p hu h1 h2 ht hproj hp hm]
                  rw [validateTaskAccess_hit_false _ db tid pid uid hu (by rw [rget_rset_self])]
                  exact ⟨rfl, fun _ => rfl⟩
                · rw [validateTaskAccess_miss_allow store db tid pid uid t p hu h1 h2 ht hproj hp hm]
                  rw [validateTaskAccess_hit_true _ db tid pid uid hu (by rw [rget_rset_self])]
                  exact ⟨rfl, fun _ => rfl⟩
            · rw [validateTaskAccess_wrongProject store db tid pid uid t hu h1 h2 ht hproj]
              rw [validateTaskAccess_wrongProject store db tid pid uid t hu h1 h2 ht hproj]
              refine ⟨rfl, fun hcon => ?_⟩
              rcases hcon with h | h <;> simp at h

/-- C8 witness: a first miss for (u1, project p1) and for (u1, task t1)
resolves allow from the datastore; the immediate second calls read nothing
from the datastore. -/
theorem check_idempotent_cache_hit_witness :
    ((validateProjectAccess
        (validateProjectAccess (some []) (⟨[("p1", ⟨"u1", ["u1"]⟩)], [("t1", ⟨"p1"⟩)], []⟩ : Db) "p1" "u1").store
        (⟨[("p1", ⟨"u1", ["u1"]⟩)], [("t1", ⟨"p1"⟩)], []⟩ : Db) "p1" "u1").dbReads = 0)
    ∧ ((validateTaskAccess
        (validateTaskAccess (some []) (⟨[("p1", ⟨"u1", ["u1"]⟩)], [("t1", ⟨"p1"⟩)], []⟩ : Db) "t1" "p1" "u1").store
        (⟨[("p1", ⟨"u1", ["u1"]⟩)], [("t1", ⟨"p1"⟩)], []⟩ : Db) "t1" "p1" "u1").dbReads = 0) :=
  ⟨(check_idempotent_cache_hit [] ⟨[("p1", ⟨"u1", ["u1"]⟩)], [("t1", ⟨"p1"⟩)], []⟩ "p1" "t1" "u1").1.2
      (Or.inl rfl),
   (check_idempotent_cache_hit [] ⟨[("p1", ⟨"u1", ["u1"]⟩)], [("t1", ⟨"p1"⟩)], []⟩ "p1" "t1" "u1").2.2
      (Or.inl rfl)⟩


/-- C2: a signature-valid, not-yet-expired access token that is revoked by
`logout` gets a revocation entry stored under `blacklist:<token value>`
with TTL exactly the remaining lifetime `exp - now`, and an immediately
following run of the authentication middleware presenting that same token
fails with 401 — the blacklist check trips before signature and expiry are
even consulted. -/
theorem logout_revokes_access_token (world : JwtWorld) (store : Store) (db : Db)
    (tok uid hdr : String) (c : JwtClaim) (now : Nat)
    (htok : tok ≠ "")
    (hdec : jwtDecode world tok = some c)
    (hexp : now < c.exp)
    (hs : strStarts hdr "Bearer " = true)
    (hsplit : (splitSpace hdr).get? 1 = some tok) :
    ∃ s2 : Store,
      logout world (some store) tok uid now = (200, some s2)
      ∧ rfind s2 ("blacklist:" ++ tok) = some ⟨"logged out", c.exp - now⟩
      ∧ authenticate world (some s2) db now (some hdr)
          = .fail 401 "Session expired. Please login again" := by
  have hpos : (0 : Int) < (c.exp : Int) - (now : Int) := by omega
  have htn : (((c.exp : Int) - (now : Int)).toNat) = c.exp - now := by omega
  refine ⟨rdel (rdel (rset store ("blacklist:" ++ tok) "logged out"
      (((c.exp : Int) - (now : Int)).toNat)) ("refresh:" ++ uid)) ("user:" ++ uid),
    ?_, ?_, ?_⟩
  · simp only [logout]
    rw [if_neg htok]
    simp only [hdec]
    rw [if_pos hpos]
  · rw [rfind_rdel, if_neg (blacklist_key_ne_user_key tok uid)]
    rw [rfind_rdel, if_neg (blacklist_key_ne_refresh_key tok uid)]
    rw [rfind_rset_self, htn]
  · have hbl : rget (rdel (rdel (rset store ("blacklist:" ++ tok) "logged out"
        (((c.exp : Int) - (now : Int)).toNat)) ("refresh:" ++ uid)) ("user:" ++ uid))
        ("blacklist:" ++ tok) = some "logged out" := by
      simp only [rget]
      rw [rfind_rdel, if_neg (blacklist_key_ne_user_key tok uid)]
      rw [rfind_rdel, if_neg (blacklist_key_ne_refresh_key tok uid)]
      rw [rfind_rset_self]
      rfl
    simp only [authenticate, hs, if_true, hsplit]
    rw [if_neg htok]
    rw [hbl]
    rfl

/-- C2 witness: token tokA for u1 expiring at 100 is revoked at time 10;
its blacklist entry carries TTL 90 and re-presenting it is rejected 401
even though the subject exists and the token would verify. -/
theorem logout_revokes_access_token_witness :
    ∃ s2 : Store,
      logout [("tokA", ⟨"u1", some Role.member, 100, jwtSecret⟩)] (some []) "tokA" "u1" 10
        = (200, some s2)
      ∧ rfind s2 ("blacklist:" ++ "tokA") = some ⟨"logged out", 90⟩
      ∧ authenticate [("tokA", ⟨"u1", some Role.member, 100, jwtSecret⟩)] (some s2)
          (⟨[], [], [("u1", ⟨Role.member⟩)]⟩ : Db) 10 (some "Bearer tokA")
          = .fail 401 "Session expired. Please login again" :=
  logout_revokes_access_token [("tokA", ⟨"u1", some Role.member, 100, jwtSecret⟩)] []
    ⟨[], [], [("u1", ⟨Role.member⟩)]⟩ "tokA" "u1" "Bearer tokA"
    ⟨"u1", some Role.member, 100, jwtSecret⟩ 10
    (by decide) rfl (by decide) rfl rfl

/-- C4: the spec-modelled refresh flow fails Unauthenticated (401) when
the refresh token does not verify (bad signature or expired), fails 401
when the registry record for the subject is absent or differs from the
presented token, and on success returns a fresh pair while the registry
record now holds the new refresh token (the single-key overwrite is the
atomic replacement). -/
theorem refreshTokens_rotation (world : JwtWorld) (store : Store) (db : Db)
    (refreshTok : String) (now : Nat) (na nr : String) :
    (∀ e, jwtVerify world jwtRefreshSecret refreshTok now = .error e →
        refreshTokens world (some store) db refreshTok now na nr = .error 401)
    ∧ (∀ c, jwtVerify world jwtRefreshSecret refreshTok now = .ok c →
        rget store ("refresh:" ++ c.uid) ≠ some refreshTok →
        refreshTokens world (some store) db refreshTok now na nr = .error 401)
    ∧ (∀ c u, jwtVerify world jwtRefreshSecret refreshTok now = .ok c →
        rget store ("refresh:" ++ c.uid) = some refreshTok →
        alookup db.users c.uid = some u →
        ∃ w2, refreshTokens world (some store) db refreshTok now na nr
            = .ok ⟨w2, some (rset store ("refresh:" ++ c.uid) nr (7 * 24 * 60 * 60)), na, nr⟩
          ∧ rget (rset store ("refresh:" ++ c.uid) nr (7 * 24 * 60 * 60)) ("refresh:" ++ c.uid)
              = some nr) := by
  refine ⟨?_, ?_, ?_⟩
  · intro e he
    simp only [refreshTokens, he]
  · intro c hc hne
    rcases hg : rget store ("refresh:" ++ c.uid) with _ | stored
    · simp [refreshTokens, hc, hg]
    · have hsr : stored ≠ refreshTok := fun h => hne (by rw [hg, h])
      simp [refreshTokens, hc, hg, hsr]
  · intro c u hc hg hu
    refine ⟨(nr, ⟨c.uid, none, now + 7 * 24 * 60 * 60, jwtRefreshSecret⟩)
        :: (na, ⟨c.uid, some u.role, now + 15 * 60, jwtSecret⟩) :: world, ?_,
      rget_rset_self _ _ _ _⟩
    simp [refreshTokens, hc, hg, hu, generateAuthTokens]

/-- C4 witness: a live registry record matching the presented refresh
token r1 rotates to r2 and the registry now holds r2. -/
theorem refreshTokens_rotation_witness :
    ∃ w2, refreshTokens [("r1", ⟨"u1", none, 1000, jwtRefreshSecret⟩)]
        (some [("refresh:u1", ⟨"r1", 604800⟩)]) (⟨[], [], [("u1", ⟨Role.member⟩)]⟩ : Db)
        "r1" 10 "a2" "r2"
      = .ok ⟨w2, some (rset [("refresh:u1", ⟨"r1", 604800⟩)]
            ("refresh:" ++ "u1") "r2" (7 * 24 * 60 * 60)), "a2", "r2"⟩
      ∧ rget (rset [("refresh:u1", ⟨"r1", 604800⟩)] ("refresh:" ++ "u1") "r2" (7 * 24 * 60 * 60))
          ("refresh:" ++ "u1") = some "r2" :=
  (refreshTokens_rotation [("r1", ⟨"u1", none, 1000, jwtRefreshSecret⟩)]
      [("refresh:u1", ⟨"r1", 604800⟩)] ⟨[], [], [("u1", ⟨Role.member⟩)]⟩ "r1" 10 "a2" "r2").2.2
    ⟨"u1", none, 1000, jwtRefreshSecret⟩ ⟨Role.member⟩ rfl rfl rfl

end PMT
